import Mathlib

/-!
Shallow embedding of the ntfy-to-telegram bridge (src/app.py) and proofs of the
specification claims about it.

Conventions of the embedding:
* Python strings are Lean `String`s; Python `None`-able values are `Option`s.
* A Python exception escaping a function is modelled by the function returning
  `none` (for `parse_message`) or an explicit `exception` outcome (for the
  websocket callback).  In particular `escape_markdown_v2(None)` raises
  `TypeError` (iterating `None`) and `priority_emoji[i]` raises `IndexError`
  when the index is out of the Python range, and both are modelled as failure.
* The inbound JSON object is modelled by `NtfyMessage`, whose fields mirror the
  `message.get(...)` accesses of `parse_message` and `ws_on_message`, with the
  source's defaults (`tags` defaults to `[]`, `priority` to `3`).
* The global `env` object is passed explicitly as an `Env` value; the HTTP
  layer of the Sender is modelled by an explicit `respond` oracle mapping the
  issued request to a response.
* The `emoji` module of the repository (the tag and priority glyph tables) is
  not under src/, so the tables are parameters of the embedded functions;
  concrete instances used by witnesses are modelled from the spec below.
* The external `md2tgmd.escape` collaborator (markdown-preserving escaper) is a
  function parameter `md_escape`; no claim depends on its behaviour.
-/

/-- Configuration fields of the global `Env` object that the message pipeline
reads (src/app.py lines 46-58).  The two display toggles are kept as raw
strings, exactly as the source stores them (the source compares them with the
literal string "True"). -/
structure Env where
  ntfy_include_topic : String
  ntfy_include_priority : String
  tg_chat_id : String
  tg_token : String

/-- Parsed inbound ntfy JSON frame, mirroring the field accesses of
src/app.py: optional fields are `.get(name)` (default `None`), `tags` is
`.get('tags', [])` and `priority` is `.get('priority', 3)`. -/
structure NtfyMessage where
  event : Option String := none
  topic : Option String := none
  title : Option String := none
  message : Option String := none
  tags : List String := []
  priority : Int := 3
  content_type : Option String := none
  click : Option String := none

/-- Reserved characters of the MarkdownV2 escaper, the string literal of
src/app.py line 92 (backtick and braces written via hex escapes). -/
def escape_chars : String := "_*[]()~\x60>#+-=|\x7b\x7d.!"

/-- Embedding of `escape_markdown_v2` (src/app.py lines 79-93): the join of a
per-character list where each reserved character is replaced by a backslash
followed by the character, and any other character is kept as a singleton. -/
def escape_markdown_v2 (text : String) : String :=
  String.join (text.data.map (fun char =>
    if escape_chars.data.contains char then String.mk ['\\', char]
    else String.mk [char]))

/-- Python list indexing `l[i]` on a list of strings: a non-negative index is
looked up directly, a negative index is offset by the length (Python's
wrap-around), and anything else raises `IndexError`, modelled as `none`. -/
def py_index (l : List String) (i : Int) : Option String :=
  if 0 ≤ i then l.get? i.toNat
  else if 0 ≤ i + l.length then l.get? (i + l.length).toNat
  else none

/-- Embedding of the tag loop of `parse_message` (src/app.py lines 138-144):
a left fold over the tags accumulating (glyph text, non-emoji tags, hasEmojis).
A mapped tag appends its glyph to the accumulated text and sets the flag; an
unmapped tag is appended to the non-emoji list. -/
def tag_fold (emoji_map : String → Option String) (tags : List String) :
    String × List String × Bool :=
  tags.foldl (fun acc tag =>
    match emoji_map tag with
    | some g => (acc.1 ++ g, acc.2.1, true)
    | none => (acc.1, acc.2.1 ++ [tag], acc.2.2)) ("", [], false)

/-- Embedding of src/app.py lines 136-147: when the tag list is non-empty, run
the tag loop and append one space after the glyphs when at least one tag was
mapped; returns the text contributed to the message and the leftover tags. -/
def tag_segment (emoji_map : String → Option String) (tags : List String) :
    String × List String :=
  if tags.length ≠ 0 then
    let r := tag_fold emoji_map tags
    (if r.2.2 then r.1 ++ " " else r.1, r.2.1)
  else ("", [])

/-- Embedding of src/app.py lines 131-134: the topic line `topic\n` is emitted
only when the include-topic toggle is exactly the string "True" and the topic
field is present; the topic is interpolated verbatim. -/
def topic_segment (env : Env) (msg : NtfyMessage) : String :=
  if env.ntfy_include_topic = "True" then
    match msg.topic with
    | some tp => tp ++ "\n"
    | none => ""
  else ""

/-- Embedding of src/app.py lines 149-151: a present title is appended verbatim
followed by one space. -/
def title_segment (msg : NtfyMessage) : String :=
  match msg.title with
  | some t => t ++ " "
  | none => ""

/-- Embedding of src/app.py lines 153-155: when the include-priority toggle is
exactly "True", the text `priority_emoji[priority-1]` with Python indexing
(`none` models the IndexError raised on an out-of-range index); otherwise the
empty contribution. -/
def priority_segment (env : Env) (priority_emoji : List String)
    (msg : NtfyMessage) : Option String :=
  if env.ntfy_include_priority = "True" then py_index priority_emoji (msg.priority - 1)
  else some ""

/-- Embedding of src/app.py lines 157-159: the blank-line separator before the
body is two newlines, emitted iff the title is present or the include-priority
toggle is "True" and the priority differs from 3. -/
def separator_segment (env : Env) (msg : NtfyMessage) : String :=
  if msg.title.isSome ∨ (env.ntfy_include_priority = "True" ∧ msg.priority ≠ 3) then "\n\n"
  else ""

/-- Embedding of src/app.py lines 122-125 and 161-168: the body is escaped by
the external markdown converter when `content_type` is `text/markdown` and by
`escape_markdown_v2` otherwise.  A missing body (`None`) makes either call
raise `TypeError`, modelled as `none`. -/
def body_segment (md_escape : String → String) (msg : NtfyMessage) : Option String :=
  match msg.message with
  | none => none
  | some b =>
      some (if msg.content_type = some "text/markdown" then md_escape b
            else escape_markdown_v2 b)

/-- Embedding of src/app.py lines 170-172: the trailing list of tags that were
not mapped to glyphs, comma-joined, when non-empty. -/
def tags_suffix (non_emoji_tags : List String) : String :=
  if non_emoji_tags.length ≠ 0 then "\ntags: " ++ String.intercalate "," non_emoji_tags
  else ""

/-- Embedding of src/app.py lines 174-176: the click action rendered as a
MarkdownV2 link whose text is the escaped URL and whose target is the raw URL. -/
def click_segment (msg : NtfyMessage) : String :=
  match msg.click with
  | some c => "\n[" ++ escape_markdown_v2 c ++ "](" ++ c ++ ")"
  | none => ""

/-- Embedding of `parse_message` (src/app.py lines 95-179): the segments above
concatenated in the source's order (topic line, tag glyphs, title, priority
glyph, separator, escaped body, leftover tags, click link).  The result is
`none` when the priority lookup raises `IndexError` or the missing body raises
`TypeError`. -/
def parse_message (env : Env) (emoji_map : String → Option String)
    (priority_emoji : List String) (md_escape : String → String)
    (msg : NtfyMessage) : Option String :=
  match priority_segment env priority_emoji msg, body_segment md_escape msg with
  | some prio_text, some body_text =>
      some (topic_segment env msg
        ++ (tag_segment emoji_map msg.tags).1
        ++ title_segment msg
        ++ prio_text
        ++ separator_segment env msg
        ++ body_text
        ++ tags_suffix (tag_segment emoji_map msg.tags).2
        ++ click_segment msg)
  | _, _ => none

/-- Request issued by the Sender to the chat-bot API (src/app.py lines
191-205). -/
structure TgRequest where
  url : String
  chat_id : String
  text : String
  parse_mode : String
  link_preview_options : String

/-- Response of the chat-bot API as the Sender observes it (src/app.py lines
207-210). -/
structure TgResponse where
  ok : Bool
  status_code : Nat
  reason : String

/-- Log entries, tagged by level, emitted by the embedded functions. -/
inductive LogEntry where
  | debug (text : String)
  | info (text : String)
  | warning (text : String)
  | error (text : String)
deriving DecidableEq, Repr

/-- Embedding of `telegram_send_message` (src/app.py lines 181-210): builds the
single request, consults the response oracle, and returns the list of issued
requests together with the one log entry — info on success, error with status
code and reason on a non-OK response.  The function always returns normally. -/
def telegram_send_message (env : Env) (respond : TgRequest → TgResponse)
    (message : String) : List TgRequest × LogEntry :=
  let req : TgRequest :=
    { url := "https://api.telegram.org/bot" ++ env.tg_token ++ "/sendMessage"
      chat_id := env.tg_chat_id
      text := message
      parse_mode := "MarkdownV2"
      link_preview_options := "\x7b\"is_disabled\": true\x7d" }
  let response := respond req
  ([req],
   if response.ok then LogEntry.info "message sent successfully"
   else LogEntry.error ("error sending message: " ++ toString response.status_code
     ++ " " ++ response.reason))

/-- Raw inbound websocket frame: either valid JSON already parsed into an
`NtfyMessage`, or text that `json.loads` fails on. -/
inductive RawFrame where
  | unparseable (raw : String)
  | parsed (msg : NtfyMessage)

/-- Outcome of the `ws_on_message` callback for one frame.  `exception` models
an uncaught Python exception escaping the callback (carrying the log entries
already emitted before the raise); the two discard outcomes carry the text of
the warning or debug log; `sent` means `telegram_send_message` is invoked once
with the formatted text. -/
inductive WsOutcome where
  | exception (prior_logs : List LogEntry) (reason : String)
  | discardedWarning (log_text : String)
  | discardedDebug (log_text : String)
  | sent (topic : String) (text : String)
deriving DecidableEq, Repr

/-- Embedding of `ws_on_message` (src/app.py lines 215-234): an unparseable
frame raises inside `json.loads`; a frame without an `event` field is discarded
with a warning; a non-"message" event is discarded with a debug log; a message
event without a `topic` field is discarded with a warning; otherwise the frame
is formatted (a formatter exception escapes after the info log) and sent. -/
def ws_on_message (env : Env) (emoji_map : String → Option String)
    (priority_emoji : List String) (md_escape : String → String) :
    RawFrame → WsOutcome
  | RawFrame.unparseable _ => WsOutcome.exception [] "json.loads raised JSONDecodeError"
  | RawFrame.parsed msg =>
    match msg.event with
    | none => WsOutcome.discardedWarning "got message without event field"
    | some ev =>
      if ev ≠ "message" then
        WsOutcome.discardedDebug ("skip message event of type '" ++ ev ++ "'")
      else
        match msg.topic with
        | none => WsOutcome.discardedWarning "got message without a valid topic"
        | some tp =>
          match parse_message env emoji_map priority_emoji md_escape msg with
          | none =>
              WsOutcome.exception
                [LogEntry.info ("received new message from topic '" ++ tp ++ "'")]
                "parse_message raised"
          | some text => WsOutcome.sent tp text

/-- One frame handled end to end: the requests issued to the chat-bot API, the
log entries emitted, and whether an exception escaped the callback. -/
def handle_frame (env : Env) (emoji_map : String → Option String)
    (priority_emoji : List String) (md_escape : String → String)
    (respond : TgRequest → TgResponse) (frame : RawFrame) :
    List TgRequest × List LogEntry × Bool :=
  match ws_on_message env emoji_map priority_emoji md_escape frame with
  | WsOutcome.exception logs _ => ([], logs, true)
  | WsOutcome.discardedWarning w => ([], [LogEntry.warning w], false)
  | WsOutcome.discardedDebug d => ([], [LogEntry.debug d], false)
  | WsOutcome.sent tp text =>
      let r := telegram_send_message env respond text
      (r.1, LogEntry.info ("received new message from topic '" ++ tp ++ "'") :: [r.2], false)

/-- Sequential processing of the inbound frame stream by the connection
manager: frames are handled in arrival order; an exception escaping the
callback halts the processing of the remaining frames (the pessimistic model of
exception propagation), while any normally handled frame — including a frame
whose send received a non-OK response — lets the stream continue. -/
def process_stream (env : Env) (emoji_map : String → Option String)
    (priority_emoji : List String) (md_escape : String → String)
    (respond : TgRequest → TgResponse) : List RawFrame → List (List TgRequest × List LogEntry)
  | [] => []
  | f :: rest =>
    let r := handle_frame env emoji_map priority_emoji md_escape respond f
    if r.2.2 then [(r.1, r.2.1)]
    else (r.1, r.2.1) :: process_stream env emoji_map priority_emoji md_escape respond rest

/-- Specification-side rendering of the glyph concatenation of 4.3: iterate the
tags in order and, for each tag present in the table, append its glyph with no
separator. -/
def spec_glyphs (emoji_map : String → Option String) : List String → String
  | [] => ""
  | t :: ts =>
    match emoji_map t with
    | some g => g ++ spec_glyphs emoji_map ts
    | none => spec_glyphs emoji_map ts

/-- Modelled from the spec: the repository's emoji module (the TagGlyphTable)
is not under src/.  The spec fixes only that it is a static partial mapping
from tag string to glyph string; this concrete instance, used by witnesses,
contains the entry of the spec's end-to-end scenario A. -/
def rawEmojis : String → Option String :=
  fun t => if t = "warning" then some "🚨" else none

/-- Modelled from the spec: the repository's emoji module (the
PriorityGlyphTable) is not under src/.  The spec fixes it as a static ordered
sequence of 5 distinct glyphs indexed by priority 1..5; the five glyphs are
represented here by five distinct placeholder strings. -/
def priorityEmojis : List String := ["P1", "P2", "P3", "P4", "P5"]

/-- Stand-in for the external md2tgmd markdown escaper used by witnesses; no
claim depends on its behaviour. -/
def sample_md_escape : String → String := fun s => s

/-- Configuration with both display toggles disabled, used by witnesses. -/
def sample_env : Env :=
  { ntfy_include_topic := "False"
    ntfy_include_priority := "False"
    tg_chat_id := "42"
    tg_token := "tok" }

/-- Configuration with both display toggles enabled, used by witnesses. -/
def sample_env_on : Env :=
  { ntfy_include_topic := "True"
    ntfy_include_priority := "True"
    tg_chat_id := "42"
    tg_token := "tok" }

/-! Helper lemmas about strings and the embedded functions. -/

/-- Folding string append from an initial value splits off that value. -/
theorem foldl_append_shift (l : List String) :
    ∀ a b : String, l.foldl (fun r s => r ++ s) (a ++ b) = a ++ l.foldl (fun r s => r ++ s) b := by
  induction l with
  | nil => intro a b; rfl
  | cons x xs ih =>
      intro a b
      show xs.foldl (fun r s => r ++ s) (a ++ b ++ x) = a ++ xs.foldl (fun r s => r ++ s) (b ++ x)
      rw [String.append_assoc, ih]

/-- String.join of a cons. -/
theorem join_cons (s : String) (l : List String) :
    String.join (s :: l) = s ++ String.join l := by
  show l.foldl (fun r t => r ++ t) ("" ++ s) = s ++ l.foldl (fun r t => r ++ t) ""
  rw [String.empty_append, ← String.append_empty s, foldl_append_shift,
    String.append_empty]

/-- Per-character unfolding of the escaper. -/
theorem escape_markdown_v2_cons (c : Char) (cs : List Char) :
    escape_markdown_v2 (String.mk (c :: cs))
      = (if escape_chars.data.contains c then String.mk ['\\', c] else String.mk [c])
        ++ escape_markdown_v2 (String.mk cs) := by
  show String.join ((if escape_chars.data.contains c then String.mk ['\\', c]
      else String.mk [c]) :: (cs.map _)) = _
  rw [join_cons]
  rfl

/-- The escaper on the empty string. -/
theorem escape_markdown_v2_empty : escape_markdown_v2 (String.mk []) = "" := rfl

/-- The escaper distributes over concatenation of character lists. -/
theorem escape_markdown_v2_append (l1 l2 : List Char) :
    escape_markdown_v2 (String.mk (l1 ++ l2))
      = escape_markdown_v2 (String.mk l1) ++ escape_markdown_v2 (String.mk l2) := by
  induction l1 with
  | nil => rw [List.nil_append, escape_markdown_v2_empty, String.empty_append]
  | cons c cs ih =>
      rw [List.cons_append, escape_markdown_v2_cons, escape_markdown_v2_cons, ih,
        String.append_assoc]

/-- Claim C2: for every text input, escape_markdown_v2 prefixes every
occurrence of each character of the reserved set with exactly one backslash and
leaves all other characters unchanged; in particular a string containing none
of the reserved characters is returned unchanged.  The first conjunct is the
no-reserved-characters identity; the second describes the output at an
arbitrary occurrence: splitting the input around any character, the output is
the escaped left part, then the character prefixed by exactly one backslash
when it is reserved and the bare character otherwise, then the escaped right
part. -/
theorem claim_C2_escape (s : String) :
    ((∀ c ∈ s.data, escape_chars.data.contains c = false) → escape_markdown_v2 s = s)
    ∧ (∀ l1 c l2, s.data = l1 ++ c :: l2 →
        escape_markdown_v2 s
          = escape_markdown_v2 (String.mk l1)
            ++ (if escape_chars.data.contains c then String.mk ['\\', c] else String.mk [c])
            ++ escape_markdown_v2 (String.mk l2)) := by
  constructor
  · cases s with
    | mk l =>
        intro h
        induction l with
        | nil => rfl
        | cons c cs ih =>
            have hc : escape_chars.data.contains c = false := h c (List.mem_cons_self c cs)
            have hcs : escape_markdown_v2 (String.mk cs) = String.mk cs :=
              ih (fun d hd => h d (List.mem_cons_of_mem c hd))
            rw [escape_markdown_v2_cons, hc, if_neg (by simp), hcs]
            rfl
  · intro l1 c l2 h
    have hs : s = String.mk (l1 ++ c :: l2) := by
      cases s with
      | mk l =>
          have hl : l = l1 ++ c :: l2 := by simpa using h
          rw [hl]
    rw [hs, escape_markdown_v2_append, ← List.singleton_append, escape_markdown_v2_append,
      escape_markdown_v2_cons, escape_markdown_v2_empty, String.append_empty,
      String.append_assoc]

/-- Witness for C2: the identity on "hello" (no reserved characters) and the
decomposition of "a.b" around the reserved dot, both obtained by applying
claim_C2_escape at concrete inputs. -/
theorem claim_C2_escape_witness :
    escape_markdown_v2 "hello" = "hello"
    ∧ escape_markdown_v2 "a.b"
        = escape_markdown_v2 (String.mk ['a'])
          ++ (if escape_chars.data.contains '.' then String.mk ['\\', '.'] else String.mk ['.'])
          ++ escape_markdown_v2 (String.mk ['b']) :=
  ⟨(claim_C2_escape "hello").1 (by decide),
   (claim_C2_escape "a.b").2 ['a'] '.' ['b'] rfl⟩

/-- Generalised unfolding of the tag loop from an arbitrary accumulator. -/
theorem tag_fold_general (emoji_map : String → Option String) (tags : List String) :
    ∀ (s : String) (l : List String) (b : Bool),
      tags.foldl (fun acc tag =>
        match emoji_map tag with
        | some g => (acc.1 ++ g, acc.2.1, true)
        | none => (acc.1, acc.2.1 ++ [tag], acc.2.2)) (s, l, b)
      = (s ++ spec_glyphs emoji_map tags,
         l ++ tags.filter (fun t => (emoji_map t).isNone),
         b || tags.any (fun t => (emoji_map t).isSome)) := by
  induction tags with
  | nil => intro s l b; simp [spec_glyphs]
  | cons t ts ih =>
      intro s l b
      cases h : emoji_map t with
      | some g =>
          simp only [List.foldl_cons, h, List.filter_cons, List.any_cons, ih,
            spec_glyphs, String.append_assoc]
          simp [h]
      | none =>
          simp only [List.foldl_cons, h, List.filter_cons, List.any_cons, ih,
            spec_glyphs, List.append_assoc]
          simp [h]

/-- The tag loop computed in closed form. -/
theorem tag_fold_eq (emoji_map : String → Option String) (tags : List String) :
    tag_fold emoji_map tags
      = (spec_glyphs emoji_map tags,
         tags.filter (fun t => (emoji_map t).isNone),
         tags.any (fun t => (emoji_map t).isSome)) := by
  show tags.foldl _ ("", [], false) = _
  rw [tag_fold_general]
  simp

/-- When no tag is mapped, the glyph text is empty. -/
theorem spec_glyphs_empty_of_not_any (emoji_map : String → Option String)
    (tags : List String) (h : tags.any (fun t => (emoji_map t).isSome) = false) :
    spec_glyphs emoji_map tags = "" := by
  induction tags with
  | nil => rfl
  | cons t ts ih =>
      simp only [List.any_cons, Bool.or_eq_false_iff] at h
      cases hm : emoji_map t with
      | some g => rw [hm] at h; simp at h
      | none => simp only [spec_glyphs, hm]; exact ih h.2

/-- Claim C6: the tag mapper partitions the tag sequence into (glyph text,
remaining tags): iterating in the given order, each tag present in the table
contributes its glyph by concatenation with no separator; tags absent from the
table are collected order-preserving into the remaining tags, which exclude
exactly the mapped ones; and when the glyph text is non-empty, the segment used
by the formatter is the glyph text followed by exactly one space. -/
theorem claim_C6_tag_mapper (emoji_map : String → Option String) (tags : List String) :
    (tag_fold emoji_map tags).1 = spec_glyphs emoji_map tags
    ∧ (tag_fold emoji_map tags).2.1 = tags.filter (fun t => (emoji_map t).isNone)
    ∧ (tag_fold emoji_map tags).2.2 = tags.any (fun t => (emoji_map t).isSome)
    ∧ ((tag_fold emoji_map tags).1 ≠ "" →
        (tag_segment emoji_map tags).1 = (tag_fold emoji_map tags).1 ++ " ")
    ∧ (tag_segment emoji_map tags).2 = tags.filter (fun t => (emoji_map t).isNone) := by
  refine ⟨?_, ?_, ?_, ?_, ?_⟩
  · rw [tag_fold_eq]
  · rw [tag_fold_eq]
  · rw [tag_fold_eq]
  · intro hne
    have hany : tags.any (fun t => (emoji_map t).isSome) = true := by
      by_contra hfalse
      have h0 : tags.any (fun t => (emoji_map t).isSome) = false :=
        Bool.eq_false_iff.mpr hfalse
      apply hne
      rw [tag_fold_eq]
      exact spec_glyphs_empty_of_not_any emoji_map tags h0
    have htags : tags.length ≠ 0 := by
      intro hlen
      apply hne
      rw [List.length_eq_zero] at hlen
      rw [hlen, tag_fold_eq]
      rfl
    unfold tag_segment
    rw [if_pos htags, tag_fold_eq]
    simp [hany]
  · unfold tag_segment
    by_cases htags : tags.length ≠ 0
    · rw [if_pos htags, tag_fold_eq]
    · rw [if_neg htags]
      simp at htags
      rw [htags]
      rfl

/-- Witness for C6: the mixed tag sequence ["warning", "zz"] under the
spec-modelled table maps "warning" to its glyph and keeps "zz"; applying
claim_C6_tag_mapper there and discharging the non-empty-glyph hypothesis. -/
theorem claim_C6_tag_mapper_witness :
    (tag_segment rawEmojis ["warning", "zz"]).1 = (tag_fold rawEmojis ["warning", "zz"]).1 ++ " "
    ∧ (tag_segment rawEmojis ["warning", "zz"]).2
        = (["warning", "zz"].filter (fun t => (rawEmojis t).isNone)) :=
  ⟨(claim_C6_tag_mapper rawEmojis ["warning", "zz"]).2.2.2.1 (by decide),
   (claim_C6_tag_mapper rawEmojis ["warning", "zz"]).2.2.2.2⟩

/-- Claim C7: in every formatted message the two-newline blank-line separator
is appended between the prefix region (topic line, tag glyphs, title, priority
glyph) and the body if and only if the title is present, or the
include-priority toggle is enabled and the priority is not 3. -/
theorem claim_C7_separator (env : Env) (emoji_map : String → Option String)
    (priority_emoji : List String) (md_escape : String → String) (msg : NtfyMessage)
    (prio_text body_text : String)
    (hp : priority_segment env priority_emoji msg = some prio_text)
    (hb : body_segment md_escape msg = some body_text) :
    parse_message env emoji_map priority_emoji md_escape msg
      = some ((topic_segment env msg ++ (tag_segment emoji_map msg.tags).1
          ++ title_segment msg ++ prio_text)
        ++ (if msg.title.isSome ∨ (env.ntfy_include_priority = "True" ∧ msg.priority ≠ 3)
            then "\n\n" else "")
        ++ (body_text ++ tags_suffix (tag_segment emoji_map msg.tags).2
          ++ click_segment msg)) := by
  unfold parse_message
  rw [hp, hb]
  unfold separator_segment
  simp [String.append_assoc]

/-- Witness for C7: a concrete message with a title, priority 3 and the
toggles off, where the separator condition holds through the title; the
separator is present in the output, by applying claim_C7_separator. -/
theorem claim_C7_separator_witness :
    parse_message sample_env rawEmojis priorityEmojis sample_md_escape
      { event := some "message", topic := some "alerts", title := some "Disk Full",
        message := some "Usage at 95%", tags := ["warning"], priority := 4 }
      = some ((topic_segment sample_env
            { event := some "message", topic := some "alerts", title := some "Disk Full",
              message := some "Usage at 95%", tags := ["warning"], priority := 4 }
          ++ (tag_segment rawEmojis ["warning"]).1
          ++ title_segment
            { event := some "message", topic := some "alerts", title := some "Disk Full",
              message := some "Usage at 95%", tags := ["warning"], priority := 4 }
          ++ "")
        ++ (if (some "Disk Full" : Option String).isSome
              ∨ (sample_env.ntfy_include_priority = "True" ∧ (4 : Int) ≠ 3)
            then "\n\n" else "")
        ++ (escape_markdown_v2 "Usage at 95%" ++ tags_suffix (tag_segment rawEmojis ["warning"]).2
          ++ click_segment
            { event := some "message", topic := some "alerts", title := some "Disk Full",
              message := some "Usage at 95%", tags := ["warning"], priority := 4 })) :=
  claim_C7_separator sample_env rawEmojis priorityEmojis sample_md_escape
    { event := some "message", topic := some "alerts", title := some "Disk Full",
      message := some "Usage at 95%", tags := ["warning"], priority := 4 }
    "" (escape_markdown_v2 "Usage at 95%") rfl rfl

/-- Claim C9: the formatter inserts the topic line and the title into the
output verbatim, without applying any escaper: whenever the include-topic
toggle is on, the topic and title are present and the formatter returns, the
output is exactly the raw topic, a newline, the tag glyph segment, the raw
title and a space, followed by the rest — even when topic or title contain
reserved markup characters. -/
theorem claim_C9_verbatim (env : Env) (emoji_map : String → Option String)
    (priority_emoji : List String) (md_escape : String → String)
    (msg : NtfyMessage) (tp ti out : String)
    (htop : env.ntfy_include_topic = "True")
    (htp : msg.topic = some tp) (hti : msg.title = some ti)
    (hout : parse_message env emoji_map priority_emoji md_escape msg = some out) :
    ∃ tail, out = tp ++ "\n" ++ (tag_segment emoji_map msg.tags).1 ++ ti ++ " " ++ tail := by
  have h1 : topic_segment env msg = tp ++ "\n" := by
    unfold topic_segment
    rw [htop, htp]
    simp
  have h2 : title_segment msg = ti ++ " " := by
    unfold title_segment
    rw [hti]
  unfold parse_message at hout
  cases hps : priority_segment env priority_emoji msg with
  | none => rw [hps] at hout; simp at hout
  | some prio_text =>
      rw [hps] at hout
      cases hbs : body_segment md_escape msg with
      | none => rw [hbs] at hout; simp at hout
      | some body_text =>
          rw [hbs] at hout
          have hbig := Option.some.inj hout
          refine ⟨prio_text ++ separator_segment env msg ++ body_text
            ++ tags_suffix (tag_segment emoji_map msg.tags).2 ++ click_segment msg, ?_⟩
          rw [← hbig, h1, h2]
          simp [String.append_assoc]

/-- Witness for C9: a topic containing an underscore and a dot and a title
containing an asterisk survive unescaped in the formatter's output, by
applying claim_C9_verbatim to a concrete message. -/
theorem claim_C9_verbatim_witness :
    ∃ tail, "my_topic.x\n🚨 Ti*tle P3\n\nbody\ntags: zz"
      = "my_topic.x" ++ "\n" ++ (tag_segment rawEmojis ["warning", "zz"]).1
        ++ "Ti*tle" ++ " " ++ tail :=
  claim_C9_verbatim sample_env_on rawEmojis priorityEmojis sample_md_escape
    { event := some "message", topic := some "my_topic.x", title := some "Ti*tle",
      message := some "body", tags := ["warning", "zz"], priority := 3 }
    "my_topic.x" "Ti*tle" "my_topic.x\n🚨 Ti*tle P3\n\nbody\ntags: zz"
    rfl rfl rfl rfl

/-- Claim C10: the include-topic and include-priority toggles take effect if
and only if the stored configuration string is exactly "True" (case
sensitive).  Any other value behaves as disabled — the formatter's output is
the one computed with the toggle set to "False" — while "True" enables the
topic line (the output gains exactly the topic-plus-newline as a front part)
and makes the priority lookup happen. -/
theorem claim_C10_toggles (vt vp cid tok : String) (emoji_map : String → Option String)
    (priority_emoji : List String) (md_escape : String → String) (msg : NtfyMessage) :
    (vt ≠ "True" →
      parse_message ⟨vt, vp, cid, tok⟩ emoji_map priority_emoji md_escape msg
        = parse_message ⟨"False", vp, cid, tok⟩ emoji_map priority_emoji md_escape msg)
    ∧ (vp ≠ "True" →
      parse_message ⟨vt, vp, cid, tok⟩ emoji_map priority_emoji md_escape msg
        = parse_message ⟨vt, "False", cid, tok⟩ emoji_map priority_emoji md_escape msg)
    ∧ (vt = "True" → ∀ tp, msg.topic = some tp →
      parse_message ⟨vt, vp, cid, tok⟩ emoji_map priority_emoji md_escape msg
        = (parse_message ⟨"False", vp, cid, tok⟩ emoji_map priority_emoji md_escape msg).map
            (fun r => tp ++ "\n" ++ r))
    ∧ (vp = "True" →
      priority_segment ⟨vt, vp, cid, tok⟩ priority_emoji msg
        = py_index priority_emoji (msg.priority - 1)) := by
  refine ⟨?_, ?_, ?_, ?_⟩
  · intro h
    have htop : topic_segment ⟨vt, vp, cid, tok⟩ msg = topic_segment ⟨"False", vp, cid, tok⟩ msg := by
      unfold topic_segment
      simp [h]
    unfold parse_message
    cases hps : priority_segment ⟨vt, vp, cid, tok⟩ priority_emoji msg with
    | none => rw [show priority_segment ⟨"False", vp, cid, tok⟩ priority_emoji msg
        = priority_segment ⟨vt, vp, cid, tok⟩ priority_emoji msg from rfl, hps]
    | some prio_text =>
        rw [show priority_segment ⟨"False", vp, cid, tok⟩ priority_emoji msg
          = priority_segment ⟨vt, vp, cid, tok⟩ priority_emoji msg from rfl, hps]
        cases hbs : body_segment md_escape msg with
        | none => rfl
        | some body_text =>
            simp only [htop]
            rfl
  · intro h
    have hps : priority_segment ⟨vt, vp, cid, tok⟩ priority_emoji msg
        = priority_segment ⟨vt, "False", cid, tok⟩ priority_emoji msg := by
      unfold priority_segment
      simp [h]
    have hsep : separator_segment ⟨vt, vp, cid, tok⟩ msg
        = separator_segment ⟨vt, "False", cid, tok⟩ msg := by
      unfold separator_segment
      simp [h]
    unfold parse_message
    rw [hps, hsep]
    rfl
  · intro h tp htp
    subst h
    have htopT : topic_segment ⟨"True", vp, cid, tok⟩ msg = tp ++ "\n" := by
      unfold topic_segment
      rw [htp]
      simp
    have htopF : topic_segment ⟨"False", vp, cid, tok⟩ msg = "" := by
      unfold topic_segment
      simp
    unfold parse_message
    cases hps : priority_segment ⟨"True", vp, cid, tok⟩ priority_emoji msg with
    | none => rw [show priority_segment ⟨"False", vp, cid, tok⟩ priority_emoji msg
        = priority_segment ⟨"True", vp, cid, tok⟩ priority_emoji msg from rfl, hps]; rfl
    | some prio_text =>
        rw [show priority_segment ⟨"False", vp, cid, tok⟩ priority_emoji msg
          = priority_segment ⟨"True", vp, cid, tok⟩ priority_emoji msg from rfl, hps]
        cases hbs : body_segment md_escape msg with
        | none => rfl
        | some body_text =>
            rw [htopT, htopF]
            simp only [Option.map_some]
            rw [String.empty_append]
            simp only [String.append_assoc]
            rfl
  · intro h
    unfold priority_segment
    simp [h]

/-- Witness for C10: with the lowercase value "true" the include-topic toggle
behaves as disabled, and with "True" the topic line is prefixed, at a concrete
message; both parts obtained by applying claim_C10_toggles. -/
theorem claim_C10_toggles_witness :
    parse_message ⟨"true", "False", "42", "tok"⟩ rawEmojis priorityEmojis sample_md_escape
        { event := some "message", topic := some "alerts", message := some "hi" }
      = parse_message ⟨"False", "False", "42", "tok"⟩ rawEmojis priorityEmojis sample_md_escape
        { event := some "message", topic := some "alerts", message := some "hi" }
    ∧ parse_message ⟨"True", "False", "42", "tok"⟩ rawEmojis priorityEmojis sample_md_escape
        { event := some "message", topic := some "alerts", message := some "hi" }
      = (parse_message ⟨"False", "False", "42", "tok"⟩ rawEmojis priorityEmojis sample_md_escape
          { event := some "message", topic := some "alerts", message := some "hi" }).map
          (fun r => "alerts" ++ "\n" ++ r) :=
  ⟨(claim_C10_toggles "true" "False" "42" "tok" rawEmojis priorityEmojis sample_md_escape
      { event := some "message", topic := some "alerts", message := some "hi" }).1
      (by decide),
   (claim_C10_toggles "True" "False" "42" "tok" rawEmojis priorityEmojis sample_md_escape
      { event := some "message", topic := some "alerts", message := some "hi" }).2.2.1
      rfl "alerts" rfl⟩


/-- Concrete message event with a present topic and a missing body, used by
the C3 counterexample. -/
def msg_no_body : NtfyMessage :=
  { event := some "message", topic := some "alerts", title := some "T", message := none }

/-- Concrete message event with priority 6, used by the C4 counterexample. -/
def msg_priority6 : NtfyMessage :=
  { event := some "message", topic := some "p6", message := some "hi", priority := 6 }

/-- Concrete message event with priority 2, used by the C4 witness. -/
def msg_priority2 : NtfyMessage :=
  { event := some "message", topic := some "p", message := some "hi", priority := 2 }

/-- Concrete message event with priority 7, used by the C4 witness. -/
def msg_priority7 : NtfyMessage :=
  { event := some "message", topic := some "p", message := some "hi", priority := 7 }

/-- Claim C3 (amended): for every message event whose body field is missing,
the formatter fails — escaping the `None` body raises `TypeError` — so no
formatted message is produced (modelled as `parse_message` returning `none`);
it does not produce an empty or degenerate formatted message. -/
theorem claim_C3_amended (env : Env) (emoji_map : String → Option String)
    (priority_emoji : List String) (md_escape : String → String)
    (msg : NtfyMessage) (h : msg.message = none) :
    parse_message env emoji_map priority_emoji md_escape msg = none := by
  have hb : body_segment md_escape msg = none := by
    unfold body_segment
    rw [h]
  unfold parse_message
  rw [hb]
  cases priority_segment env priority_emoji msg <;> rfl

/-- Witness for C3 (amended): a concrete message event with a topic but no
body yields no formatted message, by applying claim_C3_amended. -/
theorem claim_C3_amended_witness :
    parse_message sample_env rawEmojis priorityEmojis sample_md_escape
      { event := some "message", topic := some "w3", message := none } = none :=
  claim_C3_amended sample_env rawEmojis priorityEmojis sample_md_escape
    { event := some "message", topic := some "w3", message := none } rfl

/-- Counterexample to claim C3 as stated: the claim asserts that on a missing
body the formatter produces an empty or degenerate formatted message and
proceeds; on this concrete message event with a missing body the code instead
raises `TypeError` inside `escape_markdown_v2` (iterating `None`), modelled as
`parse_message` returning `none` — the frame ends with an exception escaping
the callback and no formatted message at all. -/
theorem claim_C3_counterexample :
    parse_message sample_env_on rawEmojis priorityEmojis sample_md_escape msg_no_body = none
    ∧ ws_on_message sample_env_on rawEmojis priorityEmojis sample_md_escape
        (RawFrame.parsed msg_no_body)
      = WsOutcome.exception
          [LogEntry.info "received new message from topic 'alerts'"]
          "parse_message raised" :=
  ⟨rfl, rfl⟩

/-- Claim C4 (amended): with include-priority enabled and a 5-entry glyph
table, the priority-glyph lookup returns PriorityGlyphTable[p-1] for p in
1..5; for p ≥ 6 the Python index is out of range, the lookup raises
`IndexError` and the formatter crashes (no empty glyph is rendered). -/
theorem claim_C4_amended (env : Env) (emoji_map : String → Option String)
    (priority_emoji : List String) (md_escape : String → String)
    (msg : NtfyMessage)
    (hON : env.ntfy_include_priority = "True") (hlen : priority_emoji.length = 5) :
    (1 ≤ msg.priority → msg.priority ≤ 5 →
      ∃ h5 : (msg.priority - 1).toNat < priority_emoji.length,
        priority_segment env priority_emoji msg
          = some (priority_emoji.get ⟨(msg.priority - 1).toNat, h5⟩))
    ∧ (6 ≤ msg.priority →
        parse_message env emoji_map priority_emoji md_escape msg = none) := by
  constructor
  · intro h1 h5le
    have hlt : (msg.priority - 1).toNat < priority_emoji.length := by
      rw [hlen]; omega
    refine ⟨hlt, ?_⟩
    unfold priority_segment py_index
    rw [if_pos (by rw [hON]), if_pos (by omega)]
    exact List.get?_eq_get hlt
  · intro h6
    have hnone : priority_segment env priority_emoji msg = none := by
      unfold priority_segment py_index
      rw [if_pos (by rw [hON]), if_pos (by omega)]
      apply List.get?_eq_none.mpr
      rw [hlen]; omega
    unfold parse_message
    rw [hnone]

/-- Witness for C4 (amended): with the spec-modelled 5-glyph table, priority 2
yields the second glyph and priority 7 crashes the formatter, by applying
claim_C4_amended at concrete messages. -/
theorem claim_C4_amended_witness :
    (∃ h5 : ((2 : Int) - 1).toNat < priorityEmojis.length,
      priority_segment sample_env_on priorityEmojis msg_priority2
        = some (priorityEmojis.get ⟨((2 : Int) - 1).toNat, h5⟩))
    ∧ parse_message sample_env_on rawEmojis priorityEmojis sample_md_escape msg_priority7
      = none :=
  ⟨(claim_C4_amended sample_env_on rawEmojis priorityEmojis sample_md_escape msg_priority2
      rfl rfl).1 (by decide) (by decide),
   (claim_C4_amended sample_env_on rawEmojis priorityEmojis sample_md_escape msg_priority7
      rfl rfl).2 (by decide)⟩

/-- Counterexample to claim C4 as stated: the claim asserts that a priority
outside 1..5 does not crash the formatter; with include-priority enabled and
priority 6, `priority_emoji[5]` raises `IndexError` on the 5-entry table and
the formatter crashes (modelled as `parse_message` returning `none`, the frame
ending in an exception rather than any rendered message). -/
theorem claim_C4_counterexample :
    parse_message sample_env_on rawEmojis priorityEmojis sample_md_escape msg_priority6 = none
    ∧ ws_on_message sample_env_on rawEmojis priorityEmojis sample_md_escape
        (RawFrame.parsed msg_priority6)
      = WsOutcome.exception
          [LogEntry.info "received new message from topic 'p6'"]
          "parse_message raised" :=
  ⟨rfl, rfl⟩

/-- Response oracle that always reports success, used by witnesses. -/
def respond_ok : TgRequest → TgResponse :=
  fun _ => { ok := true, status_code := 200, reason := "OK" }

/-- Response oracle that always reports a non-OK response, used by witnesses. -/
def respond_fail : TgRequest → TgResponse :=
  fun _ => { ok := false, status_code := 400, reason := "Bad Request" }

/-- Concrete well-formed message event (the spec's end-to-end scenario A). -/
def msg_scenario_a : NtfyMessage :=
  { event := some "message", topic := some "alerts", title := some "Disk Full",
    message := some "Usage at 95%", tags := ["warning"], priority := 4 }

/-- Concrete keepalive control frame (the spec's end-to-end scenario C). -/
def msg_keepalive : NtfyMessage :=
  { event := some "keepalive" }

/-- Concrete message event lacking the topic field (the spec's scenario D). -/
def msg_no_topic : NtfyMessage :=
  { event := some "message", message := some "hi" }

/-- Concrete parsed frame lacking the event field. -/
def msg_no_event : NtfyMessage :=
  { topic := some "t", message := some "m" }

/-- Claim C1 (amended): a frame that parses, has event kind "message", has a
topic field and on which the formatter returns normally produces exactly one
Sender invocation with the formatted text; if the formatter raises the frame
produces zero Sender invocations; a frame whose event kind is not "message" is
discarded with a debug log and zero invocations; a "message" frame without a
topic is discarded with a warning and zero invocations. -/
theorem claim_C1_amended (env : Env) (emoji_map : String → Option String)
    (priority_emoji : List String) (md_escape : String → String)
    (respond : TgRequest → TgResponse) (msg : NtfyMessage) :
    (∀ tp text, msg.event = some "message" → msg.topic = some tp →
      parse_message env emoji_map priority_emoji md_escape msg = some text →
      ws_on_message env emoji_map priority_emoji md_escape (RawFrame.parsed msg)
          = WsOutcome.sent tp text
        ∧ (handle_frame env emoji_map priority_emoji md_escape respond
            (RawFrame.parsed msg)).1.length = 1)
    ∧ (∀ ev, msg.event = some ev → ev ≠ "message" →
      ws_on_message env emoji_map priority_emoji md_escape (RawFrame.parsed msg)
          = WsOutcome.discardedDebug ("skip message event of type '" ++ ev ++ "'")
        ∧ (handle_frame env emoji_map priority_emoji md_escape respond
            (RawFrame.parsed msg)).1.length = 0)
    ∧ (msg.event = some "message" → msg.topic = none →
      ws_on_message env emoji_map priority_emoji md_escape (RawFrame.parsed msg)
          = WsOutcome.discardedWarning "got message without a valid topic"
        ∧ (handle_frame env emoji_map priority_emoji md_escape respond
            (RawFrame.parsed msg)).1.length = 0)
    ∧ (msg.event = some "message" → (∃ tp, msg.topic = some tp) →
      parse_message env emoji_map priority_emoji md_escape msg = none →
      (handle_frame env emoji_map priority_emoji md_escape respond
          (RawFrame.parsed msg)).1.length = 0) := by
  refine ⟨?_, ?_, ?_, ?_⟩
  · intro tp text hev htp hpm
    have hws : ws_on_message env emoji_map priority_emoji md_escape (RawFrame.parsed msg)
        = WsOutcome.sent tp text := by
      simp [ws_on_message, hev, htp, hpm]
    refine ⟨hws, ?_⟩
    unfold handle_frame
    rw [hws]
    rfl
  · intro ev hev hne
    have hws : ws_on_message env emoji_map priority_emoji md_escape (RawFrame.parsed msg)
        = WsOutcome.discardedDebug ("skip message event of type '" ++ ev ++ "'") := by
      simp [ws_on_message, hev, hne]
    refine ⟨hws, ?_⟩
    unfold handle_frame
    rw [hws]
    rfl
  · intro hev htp
    have hws : ws_on_message env emoji_map priority_emoji md_escape (RawFrame.parsed msg)
        = WsOutcome.discardedWarning "got message without a valid topic" := by
      simp [ws_on_message, hev, htp]
    refine ⟨hws, ?_⟩
    unfold handle_frame
    rw [hws]
    rfl
  · intro hev htp hpm
    rcases htp with ⟨tp, htp⟩
    have hws : ws_on_message env emoji_map priority_emoji md_escape (RawFrame.parsed msg)
        = WsOutcome.exception
            [LogEntry.info ("received new message from topic '" ++ tp ++ "'")]
            "parse_message raised" := by
      simp [ws_on_message, hev, htp, hpm]
    unfold handle_frame
    rw [hws]
    rfl

/-- Witness for C1 (amended): applying claim_C1_amended at concrete frames —
the well-formed scenario-A event yields exactly one Sender invocation, a
keepalive frame a debug discard with zero invocations, a message without topic
a warning discard with zero invocations, and a message with a missing body
(formatter raises) zero invocations. -/
theorem claim_C1_amended_witness :
    (ws_on_message sample_env rawEmojis priorityEmojis sample_md_escape
        (RawFrame.parsed msg_scenario_a)
      = WsOutcome.sent "alerts" "🚨 Disk Full \n\nUsage at 95%"
      ∧ (handle_frame sample_env rawEmojis priorityEmojis sample_md_escape respond_ok
          (RawFrame.parsed msg_scenario_a)).1.length = 1)
    ∧ (ws_on_message sample_env rawEmojis priorityEmojis sample_md_escape
        (RawFrame.parsed msg_keepalive)
      = WsOutcome.discardedDebug ("skip message event of type '" ++ "keepalive" ++ "'")
      ∧ (handle_frame sample_env rawEmojis priorityEmojis sample_md_escape respond_ok
          (RawFrame.parsed msg_keepalive)).1.length = 0)
    ∧ (ws_on_message sample_env rawEmojis priorityEmojis sample_md_escape
        (RawFrame.parsed msg_no_topic)
      = WsOutcome.discardedWarning "got message without a valid topic"
      ∧ (handle_frame sample_env rawEmojis priorityEmojis sample_md_escape respond_ok
          (RawFrame.parsed msg_no_topic)).1.length = 0)
    ∧ (handle_frame sample_env rawEmojis priorityEmojis sample_md_escape respond_ok
        (RawFrame.parsed msg_no_body)).1.length = 0 :=
  ⟨(claim_C1_amended sample_env rawEmojis priorityEmojis sample_md_escape respond_ok
      msg_scenario_a).1 "alerts" "🚨 Disk Full \n\nUsage at 95%" rfl rfl rfl,
   (claim_C1_amended sample_env rawEmojis priorityEmojis sample_md_escape respond_ok
      msg_keepalive).2.1 "keepalive" rfl (by decide),
   (claim_C1_amended sample_env rawEmojis priorityEmojis sample_md_escape respond_ok
      msg_no_topic).2.2.1 rfl rfl,
   (claim_C1_amended sample_env rawEmojis priorityEmojis sample_md_escape respond_ok
      msg_no_body).2.2.2 rfl ⟨"alerts", rfl⟩ rfl⟩

/-- Counterexample to claim C1 as stated: this concrete frame parses, has
event kind "message" and contains a topic field, yet the code performs zero
Sender invocations for it (the formatter raises on the missing body), not the
exactly one invocation the claim asserts. -/
theorem claim_C1_counterexample :
    msg_no_body.event = some "message"
    ∧ msg_no_body.topic = some "alerts"
    ∧ (handle_frame sample_env rawEmojis priorityEmojis sample_md_escape respond_ok
        (RawFrame.parsed msg_no_body)).1.length = 0 :=
  ⟨rfl, rfl, rfl⟩

/-- Claim C5 (amended): a frame that parses but lacks an event field is
discarded with a warning, with no crash and zero Sender invocations, and the
stream continues; a frame that fails to parse as JSON, however, raises out of
on_message (the json.loads call is not guarded), rather than being discarded
with a warning. -/
theorem claim_C5_amended (env : Env) (emoji_map : String → Option String)
    (priority_emoji : List String) (md_escape : String → String)
    (respond : TgRequest → TgResponse) :
    (∀ raw, ws_on_message env emoji_map priority_emoji md_escape (RawFrame.unparseable raw)
        = WsOutcome.exception [] "json.loads raised JSONDecodeError")
    ∧ (∀ msg : NtfyMessage, msg.event = none →
      ws_on_message env emoji_map priority_emoji md_escape (RawFrame.parsed msg)
          = WsOutcome.discardedWarning "got message without event field"
        ∧ (handle_frame env emoji_map priority_emoji md_escape respond
            (RawFrame.parsed msg)).1 = []
        ∧ (handle_frame env emoji_map priority_emoji md_escape respond
            (RawFrame.parsed msg)).2.2 = false) := by
  constructor
  · intro raw
    rfl
  · intro msg h
    have hws : ws_on_message env emoji_map priority_emoji md_escape (RawFrame.parsed msg)
        = WsOutcome.discardedWarning "got message without event field" := by
      simp [ws_on_message, h]
    refine ⟨hws, ?_, ?_⟩ <;> (unfold handle_frame; rw [hws])

/-- Witness for C5 (amended): applying claim_C5_amended to a concrete
unparseable frame and to a concrete parsed frame without an event field. -/
theorem claim_C5_amended_witness :
    ws_on_message sample_env rawEmojis priorityEmojis sample_md_escape
        (RawFrame.unparseable "****")
      = WsOutcome.exception [] "json.loads raised JSONDecodeError"
    ∧ (ws_on_message sample_env rawEmojis priorityEmojis sample_md_escape
        (RawFrame.parsed msg_no_event)
      = WsOutcome.discardedWarning "got message without event field"
      ∧ (handle_frame sample_env rawEmojis priorityEmojis sample_md_escape respond_ok
          (RawFrame.parsed msg_no_event)).1 = []
      ∧ (handle_frame sample_env rawEmojis priorityEmojis sample_md_escape respond_ok
          (RawFrame.parsed msg_no_event)).2.2 = false) :=
  ⟨(claim_C5_amended sample_env rawEmojis priorityEmojis sample_md_escape respond_ok).1 "****",
   (claim_C5_amended sample_env rawEmojis priorityEmojis sample_md_escape respond_ok).2
     msg_no_event rfl⟩

/-- Counterexample to claim C5 as stated: the claim asserts that an inbound
frame that fails to parse is discarded with a warning and without a crash; on
this concrete unparseable frame the code instead lets the json.loads exception
escape the callback — the handler reports a raise, issues no request and logs
no warning. -/
theorem claim_C5_counterexample :
    handle_frame sample_env rawEmojis priorityEmojis sample_md_escape respond_ok
        (RawFrame.unparseable "not json") = ([], [], true) :=
  rfl

/-- Claim C8: for every send of a formatted message the Sender issues exactly
one request (no retry); on an OK response it logs info, on a non-OK response
it logs an error carrying the status code and reason; it never raises, so
whenever a frame reaches the Sender the callback returns normally and the
connection manager processes the subsequent frames of the stream regardless of
the send outcome. -/
theorem claim_C8_sender (env : Env) (emoji_map : String → Option String)
    (priority_emoji : List String) (md_escape : String → String)
    (respond : TgRequest → TgResponse) (text : String) (msg : NtfyMessage)
    (rest : List RawFrame) :
    (∃ req : TgRequest,
      (telegram_send_message env respond text).1 = [req]
      ∧ req.text = text
      ∧ req.chat_id = env.tg_chat_id
      ∧ req.parse_mode = "MarkdownV2"
      ∧ ((respond req).ok = true →
          (telegram_send_message env respond text).2
            = LogEntry.info "message sent successfully")
      ∧ ((respond req).ok = false →
          (telegram_send_message env respond text).2
            = LogEntry.error ("error sending message: " ++ toString (respond req).status_code
                ++ " " ++ (respond req).reason)))
    ∧ (∀ tp t, ws_on_message env emoji_map priority_emoji md_escape (RawFrame.parsed msg)
          = WsOutcome.sent tp t →
        (handle_frame env emoji_map priority_emoji md_escape respond
            (RawFrame.parsed msg)).2.2 = false
        ∧ process_stream env emoji_map priority_emoji md_escape respond
            (RawFrame.parsed msg :: rest)
          = ((handle_frame env emoji_map priority_emoji md_escape respond
                (RawFrame.parsed msg)).1,
             (handle_frame env emoji_map priority_emoji md_escape respond
                (RawFrame.parsed msg)).2.1)
            :: process_stream env emoji_map priority_emoji md_escape respond rest) := by
  constructor
  · refine ⟨{ url := "https://api.telegram.org/bot" ++ env.tg_token ++ "/sendMessage"
              chat_id := env.tg_chat_id
              text := text
              parse_mode := "MarkdownV2"
              link_preview_options := "\x7b\"is_disabled\": true\x7d" },
      rfl, rfl, rfl, rfl, ?_, ?_⟩
    · intro hok
      unfold telegram_send_message
      simp only []
      rw [if_pos hok]
    · intro hbad
      unfold telegram_send_message
      simp only []
      rw [if_neg (by rw [hbad]; exact Bool.false_ne_true)]
  · intro tp t hws
    have hh : handle_frame env emoji_map priority_emoji md_escape respond
        (RawFrame.parsed msg)
        = ((telegram_send_message env respond t).1,
           LogEntry.info ("received new message from topic '" ++ tp ++ "'")
             :: [(telegram_send_message env respond t).2], false) := by
      unfold handle_frame
      rw [hws]
    constructor
    · rw [hh]
    · show (if (handle_frame env emoji_map priority_emoji md_escape respond
          (RawFrame.parsed msg)).2.2 then _ else _) = _
      rw [hh]
      rfl

/-- Witness for C8: applying claim_C8_sender with the always-failing response
oracle, a concrete formatted text, the scenario-A frame and a keepalive frame
following it: one request is issued, the failure is logged as an error with
status and reason, nothing is raised, and the next frame is still processed. -/
theorem claim_C8_sender_witness :
    (∃ req : TgRequest,
      (telegram_send_message sample_env respond_fail "hello").1 = [req]
      ∧ req.text = "hello"
      ∧ req.chat_id = sample_env.tg_chat_id
      ∧ req.parse_mode = "MarkdownV2"
      ∧ ((respond_fail req).ok = true →
          (telegram_send_message sample_env respond_fail "hello").2
            = LogEntry.info "message sent successfully")
      ∧ ((respond_fail req).ok = false →
          (telegram_send_message sample_env respond_fail "hello").2
            = LogEntry.error ("error sending message: "
                ++ toString (respond_fail req).status_code
                ++ " " ++ (respond_fail req).reason)))
    ∧ ((handle_frame sample_env rawEmojis priorityEmojis sample_md_escape respond_fail
          (RawFrame.parsed msg_scenario_a)).2.2 = false
      ∧ process_stream sample_env rawEmojis priorityEmojis sample_md_escape respond_fail
          (RawFrame.parsed msg_scenario_a :: [RawFrame.parsed msg_keepalive])
        = ((handle_frame sample_env rawEmojis priorityEmojis sample_md_escape respond_fail
              (RawFrame.parsed msg_scenario_a)).1,
           (handle_frame sample_env rawEmojis priorityEmojis sample_md_escape respond_fail
              (RawFrame.parsed msg_scenario_a)).2.1)
          :: process_stream sample_env rawEmojis priorityEmojis sample_md_escape respond_fail
              [RawFrame.parsed msg_keepalive]) :=
  ⟨(claim_C8_sender sample_env rawEmojis priorityEmojis sample_md_escape respond_fail
      "hello" msg_scenario_a [RawFrame.parsed msg_keepalive]).1,
   (claim_C8_sender sample_env rawEmojis priorityEmojis sample_md_escape respond_fail
      "hello" msg_scenario_a [RawFrame.parsed msg_keepalive]).2
     "alerts" "🚨 Disk Full \n\nUsage at 95%" rfl⟩
